import Mathlib

/-!
Verification development for the photo-backend download quota and
entitlement engine.

The repository contains several iterations of the same engine.  Two are
embedded here, faithfully and executably:

* namespace `Mem`: the in-memory iteration of `server.js` (the version
  backed by the `downloadTracker` and `ipTracker` maps, where the
  unlimited-access entitlement is a boolean flag stored on the tracked
  records).  Its endpoints are `/api/check-download-allowance`,
  `/api/register-download`, `/api/activate-unlimited` and
  `/api/user-downloads/:userId`.

* namespace `Ul`: the iteration with a dedicated `unlimitedAccessTracker`
  map of entitlement grants (activation codes, expiry timestamps and
  per-grant download counters), with the endpoints
  `/api/verify-unlimited`, `/api/activate-unlimited`,
  `/api/register-download` and the daily cleanup `setInterval` task.

JavaScript `Map` objects are modelled as functions `String -> Option _`;
`Date.now()` and `new Date().getFullYear()` are passed in explicitly as
`now` and `year` fields of the request, since every handler reads the
clock afresh.  All handlers in the source are synchronous (no `await`
between the read and the write of the shared maps), so on the Node event
loop each handler runs atomically; concurrent requests therefore reduce
to an arbitrary sequential interleaving, which is how sequences of calls
are modelled below.
-/

namespace Mem

/-- Download-history entry as pushed by the in-memory `server.js`
handlers: `{ imageId, imageTitle, timestamp, ip }`. -/
structure Event where
  imageId : String
  imageTitle : String
  timestamp : Nat
  ip : String
deriving DecidableEq, Repr

/-- Record stored in `downloadTracker` / `ipTracker`.  JavaScript objects
carry different subsets of fields depending on which handler created
them; fields that are absent on some records are modelled with
`Option`. -/
structure TrackRec where
  userId : Option String := none
  userFingerprint : Option String := none
  machineId : Option String := none
  ip : Option String := none
  downloadsUsed : Nat := 0
  unlimitedAccess : Bool := false
  unlimitedActivated : Option Nat := none
  paymentId : Option String := none
  paymentMethod : Option String := none
  userIds : List String := []
  downloadHistory : List Event := []
  firstDownload : Option Nat := none
  lastDownload : Option Nat := none
  lastCheck : Nat := 0
deriving DecidableEq, Repr

/-- The two in-memory maps of the tracking engine. -/
structure MemState where
  downloadTracker : String → Option TrackRec
  ipTracker : String → Option TrackRec

/-- Empty store: both maps fresh, as at process start. -/
def emptyState : MemState :=
  { downloadTracker := fun _ => none, ipTracker := fun _ => none }

/-- Map update, `tracker.set(key, value)`. -/
def setStore (st : String → Option TrackRec) (k : String) (v : TrackRec) :
    String → Option TrackRec :=
  fun k2 => if k2 = k then some v else st k2

/-- Key for the account dimension: `{userId}_{currentYear}`. -/
def userKey (uid : String) (year : Nat) : String :=
  uid ++ "_" ++ toString year

/-- Key for the device dimension: `machine_{machineId}_{currentYear}`. -/
def machineKey (mid : String) (year : Nat) : String :=
  "machine_" ++ mid ++ "_" ++ toString year

/-- Key for the network dimension: `ip_{ip}_{currentYear}`. -/
def ipKey (ip : String) (year : Nat) : String :=
  "ip_" ++ ip ++ "_" ++ toString year

/-- Request body (plus transport data) of the download endpoints. -/
structure RegReq where
  userId : String
  userFingerprint : Option String := none
  machineId : Option String := none
  imageId : String := ""
  imageTitle : String := ""
  ip : String := ""
  now : Nat := 0
  year : Nat := 0
deriving DecidableEq, Repr

/-- Usage reconciliation exactly as inlined in both
`check-download-allowance` and `register-download`: start at 0, then
`downloadsUsed = Math.max(downloadsUsed, data.downloadsUsed)` for the
user record, the machine record (when a machine key exists) and the ip
record, in that order. -/
def calcUsage (userData machineData ipData : Option TrackRec) : Nat :=
  let u0 : Nat := 0
  let u1 := match userData with
    | some d => Nat.max u0 d.downloadsUsed
    | none => u0
  let u2 := match machineData with
    | some d => Nat.max u1 d.downloadsUsed
    | none => u1
  match ipData with
  | some d => Nat.max u2 d.downloadsUsed
  | none => u2

/-- Unlimited-access reconciliation of `register-download`:
`userData.unlimitedAccess` or `machineData.unlimitedAccess` (the ip
record is never consulted for the flag). -/
def unlimFlag (userData machineData : Option TrackRec) : Bool :=
  let a := match userData with
    | some d => d.unlimitedAccess
    | none => false
  let b := match machineData with
    | some d => d.unlimitedAccess
    | none => false
  a || b

/-- History event pushed by `register-download`. -/
def mkEvent (r : RegReq) : Event :=
  { imageId := r.imageId, imageTitle := r.imageTitle,
    timestamp := r.now, ip := r.ip }

/-- Read of the account record: `downloadTracker.get(userKey)`. -/
def userLookup (s : MemState) (r : RegReq) : Option TrackRec :=
  s.downloadTracker (userKey r.userId r.year)

/-- Read of the device record: `machineKey ? downloadTracker.get(machineKey)
: null`. -/
def machineLookup (s : MemState) (r : RegReq) : Option TrackRec :=
  match r.machineId.map (fun m => machineKey m r.year) with
  | some k => s.downloadTracker k
  | none => none

/-- Read of the network record: `ipTracker.get(ipKey)`. -/
def ipLookup (s : MemState) (r : RegReq) : Option TrackRec :=
  s.ipTracker (ipKey r.ip r.year)

/-- Reconciled usage of a request, as computed by both download
endpoints. -/
def usageOf (s : MemState) (r : RegReq) : Nat :=
  calcUsage (userLookup s r) (machineLookup s r) (ipLookup s r)

/-- Reconciled unlimited-access flag of a request. -/
def unlimOf (s : MemState) (r : RegReq) : Bool :=
  unlimFlag (userLookup s r) (machineLookup s r)

/-- Result of `POST /api/register-download`. -/
inductive RegResult where
  /-- Denied with a 403 response: `success: false`, `remainingDownloads: 0`, with the
  reconciled `downloadsUsed`. -/
  | quotaExceeded (downloadsUsed : Nat)
  /-- Unlimited branch: `success: true`, `remainingDownloads:
  "unlimited"`. -/
  | unlimited (downloadsUsed : Nat)
  /-- Free-quota success: `remainingDownloads` and the new
  `downloadsUsed`. -/
  | success (remainingDownloads : Nat) (downloadsUsed : Nat)
deriving DecidableEq, Repr

/-- Fresh user record created inside the unlimited branch when the
account has no record yet. -/
def freshUnlimitedRec (r : RegReq) : TrackRec :=
  { userId := some r.userId, userFingerprint := r.userFingerprint,
    machineId := r.machineId, downloadsUsed := 0,
    unlimitedAccess := true, unlimitedActivated := some r.now,
    downloadHistory := [], firstDownload := some r.now,
    lastDownload := some r.now, lastCheck := r.now }

/-- Fresh user record created on the free-quota success path. -/
def freshUserRec (r : RegReq) (used : Nat) : TrackRec :=
  { userId := some r.userId, userFingerprint := r.userFingerprint,
    machineId := r.machineId, downloadsUsed := used,
    unlimitedAccess := false, downloadHistory := [mkEvent r],
    firstDownload := some r.now, lastDownload := some r.now,
    lastCheck := r.now }

/-- Fresh machine record created on the free-quota success path. -/
def freshMachineRec (r : RegReq) (mid : String) (used : Nat) : TrackRec :=
  { machineId := some mid, downloadsUsed := used, userIds := [r.userId],
    firstDownload := some r.now, lastDownload := some r.now,
    lastCheck := r.now }

/-- Fresh ip record created on the free-quota success path. -/
def freshIpRec (r : RegReq) (used : Nat) : TrackRec :=
  { ip := some r.ip, downloadsUsed := used, userIds := [r.userId],
    firstDownload := some r.now, lastDownload := some r.now,
    lastCheck := r.now }

/-- Maintenance of `userIds`: `if (!data.userIds.includes(userId))
data.userIds.push(userId)`. -/
def pushUserId (ids : List String) (uid : String) : List String :=
  if uid ∈ ids then ids else ids ++ [uid]

/-- Handler of `POST /api/register-download` (in-memory `server.js`
iteration), translated branch by branch.  Returns the response together
with the updated store. -/
def registerDownload (s : MemState) (r : RegReq) : RegResult × MemState :=
  let ukey := userKey r.userId r.year
  let ikey := ipKey r.ip r.year
  let userData := userLookup s r
  let machineData := machineLookup s r
  let ipData := ipLookup s r
  let downloadsUsed := usageOf s r
  let unlimitedAccess := unlimOf s r
  if unlimitedAccess then
    let ud0 := match userData with
      | none => freshUnlimitedRec r
      | some d => d
    let ud := { ud0 with
      downloadHistory := ud0.downloadHistory ++ [mkEvent r],
      lastDownload := some r.now }
    (RegResult.unlimited downloadsUsed,
      { s with downloadTracker := setStore s.downloadTracker ukey ud })
  else if 3 ≤ downloadsUsed then
    (RegResult.quotaExceeded downloadsUsed, s)
  else
    let ud := match userData with
      | none => freshUserRec r (downloadsUsed + 1)
      | some d => { d with
          downloadsUsed := downloadsUsed + 1,
          downloadHistory := d.downloadHistory ++ [mkEvent r],
          lastDownload := some r.now, lastCheck := r.now }
    let dt1 := match r.machineId with
      | none => s.downloadTracker
      | some m =>
        let md := match machineData with
          | none => freshMachineRec r m (downloadsUsed + 1)
          | some d => { d with
              downloadsUsed := downloadsUsed + 1,
              lastDownload := some r.now, lastCheck := r.now,
              userIds := pushUserId d.userIds r.userId }
        setStore s.downloadTracker (machineKey m r.year) md
    let ipd := match ipData with
      | none => freshIpRec r (downloadsUsed + 1)
      | some d => { d with
          downloadsUsed := downloadsUsed + 1,
          lastDownload := some r.now, lastCheck := r.now,
          userIds := pushUserId d.userIds r.userId }
    let dt2 := setStore dt1 ukey ud
    let it2 := setStore s.ipTracker ikey ipd
    (RegResult.success (3 - (downloadsUsed + 1)) (downloadsUsed + 1),
      { downloadTracker := dt2, ipTracker := it2 })

/-- Result of `POST /api/check-download-allowance`. -/
inductive CheckResult where
  | unlimited (downloadsUsed : Nat)
  | denied (downloadsUsed : Nat)
  | allowed (remainingDownloads : Nat) (downloadsUsed : Nat)
deriving DecidableEq, Repr

/-- Handler of `POST /api/check-download-allowance` (read-only). -/
def checkAllowance (s : MemState) (r : RegReq) : CheckResult :=
  let downloadsUsed := usageOf s r
  let unlimitedAccess := unlimOf s r
  if unlimitedAccess then CheckResult.unlimited downloadsUsed
  else if 3 ≤ downloadsUsed then CheckResult.denied downloadsUsed
  else CheckResult.allowed (3 - downloadsUsed) downloadsUsed

/-- Request body of `POST /api/activate-unlimited` (in-memory
iteration). -/
structure ActReq where
  userId : String
  paymentId : Option String := none
  paymentMethod : Option String := none
  machineId : Option String := none
  now : Nat := 0
  year : Nat := 0
deriving DecidableEq, Repr

/-- Handler of `POST /api/activate-unlimited` (in-memory iteration): sets
the `unlimitedAccess` flag on the account record (creating it with
`downloadsUsed: 0` if absent) and likewise on the machine record when a
machine id is supplied. -/
def activateUnlimited (s : MemState) (r : ActReq) : MemState :=
  let ukey := userKey r.userId r.year
  let ud := match s.downloadTracker ukey with
    | none =>
      { userId := some r.userId, downloadsUsed := 0,
        unlimitedAccess := true, unlimitedActivated := some r.now,
        paymentId := r.paymentId, paymentMethod := r.paymentMethod,
        downloadHistory := [], firstDownload := some r.now,
        lastDownload := none, lastCheck := r.now : TrackRec }
    | some d => { d with
        unlimitedAccess := true, unlimitedActivated := some r.now,
        paymentId := r.paymentId, paymentMethod := r.paymentMethod,
        lastCheck := r.now }
  let dt1 := setStore s.downloadTracker ukey ud
  let dt2 := match r.machineId with
    | none => dt1
    | some m =>
      let k := machineKey m r.year
      let md := match s.downloadTracker k with
        | none =>
          { machineId := some m, downloadsUsed := 0,
            unlimitedAccess := true, unlimitedActivated := some r.now,
            userIds := [r.userId], firstDownload := some r.now,
            lastDownload := none, lastCheck := r.now : TrackRec }
        | some d => { d with
            unlimitedAccess := true, unlimitedActivated := some r.now,
            lastCheck := r.now, userIds := pushUserId d.userIds r.userId }
      setStore dt1 k md
  { s with downloadTracker := dt2 }

/-- Downloads-used counter recorded in `downloadTracker` under a key,
read as 0 when no record exists (the same default the reconciliation
applies to an absent record). -/
def usedD (s : MemState) (k : String) : Nat :=
  match s.downloadTracker k with
  | some d => d.downloadsUsed
  | none => 0

/-- Downloads-used counter recorded in `ipTracker` under a key, 0 when
absent. -/
def usedI (s : MemState) (k : String) : Nat :=
  match s.ipTracker k with
  | some d => d.downloadsUsed
  | none => 0

/-- Download history recorded in `downloadTracker` under a key, empty
when no record exists. -/
def histD (s : MemState) (k : String) : List Event :=
  match s.downloadTracker k with
  | some d => d.downloadHistory
  | none => []

/-- State reached from the empty store by a sequence of
`register-download` calls (each handler is synchronous, so any
concurrent schedule of requests is one such sequence). -/
def runRegisterList (reqs : List RegReq) : MemState :=
  List.foldl (fun s r => (registerDownload s r).2) emptyState reqs

/-- Modelled from the spec ("reads the QuotaRecord for each present key,
returns the maximum of their downloads-used counters (0 if none
exist)"): the reconciliation the spec prescribes, used as the comparison
point for the code's `calcUsage`. -/
def specMaxUsage (userData machineData ipData : Option TrackRec) : Nat :=
  ((userData.toList ++ machineData.toList ++ ipData.toList).map
    TrackRec.downloadsUsed).foldr Nat.max 0

end Mem

namespace Ul

/-- History entry pushed on an unlimited download:
`{ imageId, imageTitle, timestamp, noWatermark: true, highResolution:
true }`. -/
structure GrantEvent where
  imageId : String
  imageTitle : String
  timestamp : Nat
  noWatermark : Bool
  highResolution : Bool
deriving DecidableEq, Repr

/-- Entitlement grant stored in `unlimitedAccessTracker`. -/
structure Grant where
  userId : String
  machineId : String
  paymentId : String
  paymentMethod : String
  email : Option String := none
  activationCode : String
  activated : Nat
  expires : Nat
  devices : List String := []
  features : List String := []
  downloadsCount : Nat := 0
  lastDownload : Option Nat := none
  downloadHistory : List GrantEvent := []
deriving DecidableEq, Repr

/-- Free-quota history entry of this iteration: same fields as in the
in-memory iteration plus `watermarked: true`. -/
structure QuotaEvent where
  imageId : String
  imageTitle : String
  timestamp : Nat
  ip : String
  watermarked : Bool
deriving DecidableEq, Repr

/-- Record of the `downloadTracker` / `ipTracker` maps of this
iteration. -/
structure QuotaRec where
  userId : Option String := none
  userFingerprint : Option String := none
  machineId : Option String := none
  ip : Option String := none
  downloadsUsed : Nat := 0
  unlimitedAccess : Bool := false
  userIds : List String := []
  downloadHistory : List QuotaEvent := []
  firstDownload : Option Nat := none
  lastDownload : Option Nat := none
  lastCheck : Nat := 0
deriving DecidableEq, Repr

/-- The three maps of this iteration: `downloadTracker`, `ipTracker` and
`unlimitedAccessTracker`. -/
structure UlState where
  downloadTracker : String → Option QuotaRec
  ipTracker : String → Option QuotaRec
  unlimitedAccessTracker : String → Option Grant

/-- Empty store, as at process start. -/
def emptyState : UlState :=
  { downloadTracker := fun _ => none, ipTracker := fun _ => none,
    unlimitedAccessTracker := fun _ => none }

/-- Map update for quota records. -/
def setQ (st : String → Option QuotaRec) (k : String) (v : QuotaRec) :
    String → Option QuotaRec :=
  fun k2 => if k2 = k then some v else st k2

/-- Map update for grants. -/
def setG (st : String → Option Grant) (k : String) (v : Grant) :
    String → Option Grant :=
  fun k2 => if k2 = k then some v else st k2

/-- Grant lookup key `unlimited_user_{userId}`. -/
def userKeyUl (uid : String) : String := "unlimited_user_" ++ uid

/-- Grant lookup key `unlimited_machine_{machineId}`. -/
def machineKeyUl (mid : String) : String := "unlimited_machine_" ++ mid

/-- Grant lookup key `activation_{activationCode}`. -/
def activationKeyUl (code : String) : String := "activation_" ++ code

/-- Grant lookup key `payment_{paymentId}`. -/
def paymentKeyUl (pid : String) : String := "payment_" ++ pid

/-- One year in milliseconds: `365 * 24 * 60 * 60 * 1000`. -/
def yearMs : Nat := 365 * 24 * 60 * 60 * 1000

/-- One day in milliseconds, the `oneDay` constant of the cleanup
task. -/
def oneDay : Nat := 24 * 60 * 60 * 1000

/-- Request body of `POST /api/activate-unlimited` (grant iteration).
The activation code is generated from `Date.now()` and `Math.random()`
in the source; the generated string is passed in as `code`. -/
structure UlActReq where
  userId : String
  paymentId : Option String := none
  paymentMethod : Option String := none
  machineId : Option String := none
  email : Option String := none
  code : String := ""
  now : Nat := 0
deriving DecidableEq, Repr

/-- Handler of `POST /api/activate-unlimited` (grant iteration): builds a
fresh grant with `expires = now + 365 days` and stores it under the user
key, the activation-code key and, when a machine id is supplied, the
machine key.  Keys of earlier activations are not removed. -/
def activateUnlimited (s : UlState) (r : UlActReq) : UlState :=
  let grant : Grant :=
    { userId := r.userId,
      machineId := r.machineId.getD "unknown",
      paymentId := r.paymentId.getD ("payment_" ++ toString r.now),
      paymentMethod := r.paymentMethod.getD "unknown",
      email := r.email,
      activationCode := r.code,
      activated := r.now,
      expires := r.now + yearMs,
      devices := match r.machineId with
        | some m => [m]
        | none => [],
      features := ["unlimited_high_resolution_downloads", "no_watermarks",
        "commercial_license", "priority_support", "exclusive_photos",
        "early_access"],
      downloadsCount := 0,
      lastDownload := none,
      downloadHistory := [] }
  let t1 := setG s.unlimitedAccessTracker (userKeyUl r.userId) grant
  let t2 := setG t1 (activationKeyUl r.code) grant
  let t3 := match r.machineId with
    | none => t2
    | some m => setG t2 (machineKeyUl m) grant
  { s with unlimitedAccessTracker := t3 }

/-- Lookup sequence of `POST /api/verify-unlimited`: activation code
first (when supplied), then user id, then machine id (when supplied). -/
def lookupVerify (s : UlState) (userId : String)
    (machineId activationCode : Option String) : Option Grant :=
  let d1 := match activationCode with
    | some c => s.unlimitedAccessTracker (activationKeyUl c)
    | none => none
  let d2 := match d1 with
    | some g => some g
    | none => s.unlimitedAccessTracker (userKeyUl userId)
  match d2 with
  | some g => some g
  | none =>
    match machineId with
    | some m => s.unlimitedAccessTracker (machineKeyUl m)
    | none => none

/-- Response of `POST /api/verify-unlimited`. -/
inductive VerifyResult where
  /-- no grant found under any lookup key: `hasUnlimited: false`,
  message `No unlimited access found`. -/
  | notFound
  /-- grant found but `Date.now() > expires`: `hasUnlimited: false`,
  message `Unlimited access has expired`. -/
  | expired
  /-- valid grant: `hasUnlimited: true` with the grant's data. -/
  | active (activated : Nat) (expires : Nat) (downloadsCount : Nat)
      (activationCode : String)
deriving DecidableEq, Repr

/-- The `hasUnlimited` field of the `verify-unlimited` response. -/
def VerifyResult.hasUnlimited : VerifyResult → Bool
  | .active _ _ _ _ => true
  | _ => false

/-- Handler of `POST /api/verify-unlimited` (read-only). -/
def verifyUnlimited (s : UlState) (userId : String)
    (machineId activationCode : Option String) (now : Nat) :
    VerifyResult :=
  match lookupVerify s userId machineId activationCode with
  | none => VerifyResult.notFound
  | some g =>
    if now > g.expires then VerifyResult.expired
    else VerifyResult.active g.activated g.expires g.downloadsCount
      g.activationCode

/-- Lookup sequence of `POST /api/register-download` (grant iteration):
user key first, then machine key; the activation code is not consulted
by this endpoint. -/
def lookupRegister (s : UlState) (userId : String)
    (machineId : Option String) : Option Grant :=
  match s.unlimitedAccessTracker (userKeyUl userId) with
  | some g => some g
  | none =>
    match machineId with
    | some m => s.unlimitedAccessTracker (machineKeyUl m)
    | none => none

/-- Response of `POST /api/register-download` (grant iteration). -/
inductive UlRegResult where
  /-- Denied with the 403 response `Your unlimited access has expired`, sent when a
  grant is found but `Date.now() > expires`. -/
  | expiredDenied
  /-- unlimited download processed: new `downloadsCount` and the grant's
  `expires`. -/
  | unlimitedOk (downloadsCount : Nat) (expires : Nat)
  /-- Denied with the 403 response `Download limit reached`. -/
  | quotaExceeded (downloadsUsed : Nat)
  /-- free-quota success. -/
  | success (remainingDownloads : Nat) (downloadsUsed : Nat)
deriving DecidableEq, Repr

/-- Request of `POST /api/register-download` (grant iteration); the
optional `activationCode` of the body is not read by this handler. -/
structure UlRegReq where
  userId : String
  userFingerprint : Option String := none
  machineId : Option String := none
  imageId : String := ""
  imageTitle : String := ""
  ip : String := ""
  now : Nat := 0
  year : Nat := 0
deriving DecidableEq, Repr

/-- Usage reconciliation of the free-quota path, identical to the
in-memory iteration: fold of `Math.max` over the present records. -/
def calcUsageUl (userData machineData ipData : Option QuotaRec) : Nat :=
  let u0 : Nat := 0
  let u1 := match userData with
    | some d => Nat.max u0 d.downloadsUsed
    | none => u0
  let u2 := match machineData with
    | some d => Nat.max u1 d.downloadsUsed
    | none => u1
  match ipData with
  | some d => Nat.max u2 d.downloadsUsed
  | none => u2

/-- Handler of `POST /api/register-download` (grant iteration): checks
the `unlimitedAccessTracker` first; a found-but-expired grant is
rejected with 403 without falling through to the free-quota path; a
valid grant gets its counter and log updated under every key it is known
by here (user, activation code, machine); otherwise the free-quota path
runs exactly as in the in-memory iteration. -/
def registerDownload (s : UlState) (r : UlRegReq) : UlRegResult × UlState :=
  match lookupRegister s r.userId r.machineId with
  | some g =>
    if r.now > g.expires then (UlRegResult.expiredDenied, s)
    else
      let g2 := { g with
        downloadsCount := g.downloadsCount + 1,
        lastDownload := some r.now,
        downloadHistory := g.downloadHistory ++
          [{ imageId := r.imageId, imageTitle := r.imageTitle,
             timestamp := r.now, noWatermark := true,
             highResolution := true }] }
      let t1 := setG s.unlimitedAccessTracker (userKeyUl r.userId) g2
      let t2 := setG t1 (activationKeyUl g2.activationCode) g2
      let t3 := match r.machineId with
        | none => t2
        | some m => setG t2 (machineKeyUl m) g2
      (UlRegResult.unlimitedOk g2.downloadsCount g.expires,
        { s with unlimitedAccessTracker := t3 })
  | none =>
    let ukey := r.userId ++ "_" ++ toString r.year
    let ikey := "ip_" ++ r.ip ++ "_" ++ toString r.year
    let userData := s.downloadTracker ukey
    let machineData := match r.machineId with
      | some m => s.downloadTracker ("machine_" ++ m ++ "_" ++ toString r.year)
      | none => none
    let ipData := s.ipTracker ikey
    let downloadsUsed := calcUsageUl userData machineData ipData
    if 3 ≤ downloadsUsed then
      (UlRegResult.quotaExceeded downloadsUsed, s)
    else
      let ev : QuotaEvent :=
        { imageId := r.imageId, imageTitle := r.imageTitle,
          timestamp := r.now, ip := r.ip, watermarked := true }
      let ud := match userData with
        | none =>
          { userId := some r.userId, userFingerprint := r.userFingerprint,
            machineId := r.machineId, downloadsUsed := downloadsUsed + 1,
            unlimitedAccess := false, downloadHistory := [ev],
            firstDownload := some r.now, lastDownload := some r.now,
            lastCheck := r.now : QuotaRec }
        | some d => { d with
            downloadsUsed := downloadsUsed + 1,
            downloadHistory := d.downloadHistory ++ [ev],
            lastDownload := some r.now, lastCheck := r.now }
      let dt1 := match r.machineId with
        | none => s.downloadTracker
        | some m =>
          let md := match machineData with
            | none =>
              { machineId := some m, downloadsUsed := downloadsUsed + 1,
                userIds := [r.userId], firstDownload := some r.now,
                lastDownload := some r.now, lastCheck := r.now : QuotaRec }
            | some d => { d with
                downloadsUsed := downloadsUsed + 1,
                lastDownload := some r.now, lastCheck := r.now,
                userIds := if r.userId ∈ d.userIds then d.userIds
                  else d.userIds ++ [r.userId] }
          setQ s.downloadTracker ("machine_" ++ m ++ "_" ++ toString r.year) md
      let ipd := match ipData with
        | none =>
          { ip := some r.ip, downloadsUsed := downloadsUsed + 1,
            userIds := [r.userId], firstDownload := some r.now,
            lastDownload := some r.now, lastCheck := r.now : QuotaRec }
        | some d => { d with
            downloadsUsed := downloadsUsed + 1,
            lastDownload := some r.now, lastCheck := r.now,
            userIds := if r.userId ∈ d.userIds then d.userIds
              else d.userIds ++ [r.userId] }
      let dt2 := setQ dt1 ukey ud
      let it2 := setQ s.ipTracker ikey ipd
      (UlRegResult.success (3 - (downloadsUsed + 1)) (downloadsUsed + 1),
        { s with downloadTracker := dt2, ipTracker := it2 })

/-- Daily cleanup task (`setInterval` body of the grant iteration):
deletes `downloadTracker` records with `now - lastCheck > 30 days`,
`ipTracker` records with `now - lastCheck > 7 days`, and grants with
`expires && now > expires` (the truthiness test makes a zero `expires`
escape deletion). -/
def sweep (s : UlState) (now : Nat) : UlState :=
  { downloadTracker := fun k =>
      match s.downloadTracker k with
      | none => none
      | some d => if 30 * oneDay < now - d.lastCheck then none else some d,
    ipTracker := fun k =>
      match s.ipTracker k with
      | none => none
      | some d => if 7 * oneDay < now - d.lastCheck then none else some d,
    unlimitedAccessTracker := fun k =>
      match s.unlimitedAccessTracker k with
      | none => none
      | some g => if g.expires ≠ 0 ∧ g.expires < now then none else some g }

end Ul

namespace Fx

/-- Scenario A request: fresh account `u1`, no device id, fixed network
address, one request per image reference. -/
def rA (img : String) : Mem.RegReq :=
  { userId := "u1", machineId := none, imageId := img, imageTitle := img,
    ip := "ip1", now := 100, year := 2025 }

/-- Store after the first Scenario A download. -/
def sA1 : Mem.MemState := (Mem.registerDownload Mem.emptyState (rA "img1")).2

/-- Store after the second Scenario A download. -/
def sA2 : Mem.MemState := (Mem.registerDownload sA1 (rA "img2")).2

/-- Store after the third Scenario A download. -/
def sA3 : Mem.MemState := (Mem.registerDownload sA2 (rA "img3")).2

/-- Scenario B device record: device `d9` with 3 downloads used this
epoch. -/
def mdB : Mem.TrackRec := { machineId := some "d9", downloadsUsed := 3 }

/-- Scenario B store: only the device record for `d9` exists. -/
def sB : Mem.MemState :=
  { downloadTracker :=
      Mem.setStore Mem.emptyState.downloadTracker (Mem.machineKey "d9" 2025) mdB,
    ipTracker := fun _ => none }

/-- Scenario B request: account `u2` (no record of its own) presenting
device `d9`. -/
def rB : Mem.RegReq :=
  { userId := "u2", machineId := some "d9", imageId := "img",
    imageTitle := "t", ip := "ipB", now := 5, year := 2025 }

/-- Denial fixture: account `u9` already at 3 downloads. -/
def udC4 : Mem.TrackRec := { userId := some "u9", downloadsUsed := 3 }

/-- Denial fixture store. -/
def sC4 : Mem.MemState :=
  { downloadTracker :=
      Mem.setStore Mem.emptyState.downloadTracker (Mem.userKey "u9" 2025) udC4,
    ipTracker := fun _ => none }

/-- Denial fixture request. -/
def rC4 : Mem.RegReq :=
  { userId := "u9", imageId := "img", ip := "ip4", now := 9, year := 2025 }

/-- Scenario C store: account `u3` activated unlimited access. -/
def sC7 : Mem.MemState :=
  Mem.activateUnlimited Mem.emptyState
    { userId := "u3", paymentId := some "pay3", paymentMethod := some "stripe",
      now := 50, year := 2025 }

/-- Scenario C download request for account `u3`. -/
def rC7 : Mem.RegReq :=
  { userId := "u3", imageId := "img", ip := "ip7", now := 60, year := 2025 }

/-- Synchronization fixture request: fresh account with a device id. -/
def rC9 : Mem.RegReq :=
  { userId := "u4", machineId := some "m4", imageId := "img", ip := "ip9",
    now := 1, year := 2025 }

/-- First activation of Scenario-idempotence: account `u`, code `C1`,
at time 1000. -/
def act1 : Ul.UlActReq := { userId := "u", code := "C1", now := 1000 }

/-- Second activation: same account, fresh code `C2`, at time 2000. -/
def act2 : Ul.UlActReq := { userId := "u", code := "C2", now := 2000 }

/-- Store after activating twice for the same account. -/
def sAct2 : Ul.UlState :=
  Ul.activateUnlimited (Ul.activateUnlimited Ul.emptyState act1) act2

/-- Expired-grant store: account `u5` activated at time 0, so the grant
expires at `yearMs`. -/
def sExp : Ul.UlState :=
  Ul.activateUnlimited Ul.emptyState { userId := "u5", code := "C9", now := 0 }

/-- Request arriving after the grant of `u5` has expired. -/
def rExp : Ul.UlRegReq :=
  { userId := "u5", imageId := "img", ip := "ipX", now := Ul.yearMs + 5,
    year := 2026 }

/-- The grant held by `u5` in `sExp`, spelled out. -/
def gExp : Ul.Grant :=
  { userId := "u5", machineId := "unknown", paymentId := "payment_0",
    paymentMethod := "unknown", email := none, activationCode := "C9",
    activated := 0, expires := Ul.yearMs, devices := [],
    features := ["unlimited_high_resolution_downloads", "no_watermarks",
      "commercial_license", "priority_support", "exclusive_photos",
      "early_access"],
    downloadsCount := 0, lastDownload := none, downloadHistory := [] }

/-- Boundary grant whose expires-at equals the sweep time. -/
def gBound : Ul.Grant :=
  { userId := "u", machineId := "m", paymentId := "p",
    paymentMethod := "pm", activationCode := "C", activated := 0,
    expires := 100 }

/-- Store holding only the boundary grant. -/
def sBound : Ul.UlState :=
  { Ul.emptyState with
    unlimitedAccessTracker :=
      Ul.setG Ul.emptyState.unlimitedAccessTracker (Ul.userKeyUl "u") gBound }

/-- Sweep fixture: one account record last checked at time 0. -/
def dSweep : Ul.QuotaRec := { userId := some "u7", downloadsUsed := 1 }

/-- Sweep fixture store. -/
def sSweep : Ul.UlState :=
  { Ul.emptyState with
    downloadTracker :=
      Ul.setQ Ul.emptyState.downloadTracker "u7_2025" dSweep }

end Fx

namespace Mem

/-- The code's fold-of-max reconciliation agrees with the spec's
"maximum of the downloads-used counters of the present records, 0 if
none exist". -/
theorem calcUsage_eq_spec (ud md id : Option TrackRec) :
    calcUsage ud md id = specMaxUsage ud md id := by
  cases ud <;> cases md <;> cases id <;>
    simp [calcUsage, specMaxUsage, Nat.zero_max, Nat.max_zero, Nat.max_assoc]

/-- Reconciled usage dominates the device record's counter. -/
theorem le_calcUsage_machine (ud id : Option TrackRec) (d : TrackRec) :
    d.downloadsUsed ≤ calcUsage ud (some d) id := by
  cases ud <;> cases id <;>
    simp [calcUsage, Nat.max_def] <;> split_ifs <;> omega

/-- Reconciled usage dominates the network record's counter. -/
theorem le_calcUsage_ip (ud md : Option TrackRec) (d : TrackRec) :
    d.downloadsUsed ≤ calcUsage ud md (some d) := by
  cases ud <;> cases md <;>
    simp [calcUsage, Nat.max_def] <;> split_ifs <;> omega

/-- Denial branch of `register-download`: when no unlimited flag applies
and the reconciled usage is at least 3, the handler answers 403 and
returns the store untouched. -/
theorem register_denied (s : MemState) (r : RegReq)
    (hU : unlimOf s r = false) (h3 : 3 ≤ usageOf s r) :
    registerDownload s r = (RegResult.quotaExceeded (usageOf s r), s) := by
  simp [registerDownload, hU, h3]

/-- Unlimited branch leaves every `downloadTracker` counter unchanged
(the account record is created with counter 0 when absent, and only its
history and last-download fields change when present). -/
theorem usedD_register_unlim (s : MemState) (r : RegReq)
    (hU : unlimOf s r = true) (k : String) :
    usedD (registerDownload s r).2 k = usedD s k := by
  simp only [registerDownload, hU]
  by_cases hk : k = userKey r.userId r.year
  · subst hk
    cases heq : userLookup s r with
    | none =>
      have heq2 : s.downloadTracker (userKey r.userId r.year) = none := heq
      simp [usedD, setStore, heq, heq2, freshUnlimitedRec]
    | some d =>
      have heq2 : s.downloadTracker (userKey r.userId r.year) = some d := heq
      simp [usedD, setStore, heq, heq2]
  · simp [usedD, setStore, hk]

/-- Unlimited branch never touches the `ipTracker`. -/
theorem usedI_register_unlim (s : MemState) (r : RegReq)
    (hU : unlimOf s r = true) (k : String) :
    usedI (registerDownload s r).2 k = usedI s k := by
  simp only [registerDownload, hU]
  simp [usedI]

/-- Unlimited branch appends the event to the account record's
history. -/
theorem histD_register_unlim (s : MemState) (r : RegReq)
    (hU : unlimOf s r = true) :
    histD (registerDownload s r).2 (userKey r.userId r.year) =
      histD s (userKey r.userId r.year) ++ [mkEvent r] := by
  simp only [registerDownload, hU]
  cases heq : userLookup s r with
  | none =>
    have heq2 : s.downloadTracker (userKey r.userId r.year) = none := heq
    simp [histD, setStore, heq, heq2, freshUnlimitedRec]
  | some d =>
    have heq2 : s.downloadTracker (userKey r.userId r.year) = some d := heq
    simp [histD, setStore, heq, heq2]

/-- Response of the unlimited branch. -/
theorem register_unlim_result (s : MemState) (r : RegReq)
    (hU : unlimOf s r = true) :
    (registerDownload s r).1 = RegResult.unlimited (usageOf s r) := by
  simp [registerDownload, hU]

/-- Response of the free-quota success branch. -/
theorem register_success_result (s : MemState) (r : RegReq)
    (hU : unlimOf s r = false) (h3 : ¬ 3 ≤ usageOf s r) :
    (registerDownload s r).1 =
      RegResult.success (3 - (usageOf s r + 1)) (usageOf s r + 1) := by
  simp [registerDownload, hU, h3]

/-- After a free-quota success, the `downloadTracker` holds the
reconciled usage plus one under the account key and under the device
key (when a device id was presented), and is unchanged elsewhere. -/
theorem usedD_register_success (s : MemState) (r : RegReq)
    (hU : unlimOf s r = false) (h3 : ¬ 3 ≤ usageOf s r) (k : String) :
    usedD (registerDownload s r).2 k =
      if k = userKey r.userId r.year then usageOf s r + 1
      else match r.machineId with
        | some m =>
          if k = machineKey m r.year then usageOf s r + 1 else usedD s k
        | none => usedD s k := by
  simp only [registerDownload, hU, Bool.false_eq_true, if_false, if_neg h3]
  by_cases hk : k = userKey r.userId r.year
  · subst hk
    cases heq : userLookup s r with
    | none => simp [usedD, setStore, heq, freshUserRec]
    | some d => simp [usedD, setStore, heq]
  · simp only [usedD, setStore, if_neg hk]
    cases hm : r.machineId with
    | none => simp
    | some m =>
      by_cases hk2 : k = machineKey m r.year
      · subst hk2
        cases heq : machineLookup s r with
        | none => simp [hm, heq, freshMachineRec, setStore]
        | some d => simp [hm, heq, setStore]
      · simp [hm, hk2, setStore]

/-- After a free-quota success, the `ipTracker` holds the reconciled
usage plus one under the network key and is unchanged elsewhere. -/
theorem usedI_register_success (s : MemState) (r : RegReq)
    (hU : unlimOf s r = false) (h3 : ¬ 3 ≤ usageOf s r) (k : String) :
    usedI (registerDownload s r).2 k =
      if k = ipKey r.ip r.year then usageOf s r + 1 else usedI s k := by
  simp only [registerDownload, hU, Bool.false_eq_true, if_false, if_neg h3]
  by_cases hk : k = ipKey r.ip r.year
  · subst hk
    cases heq : ipLookup s r with
    | none =>
      have heq2 : s.ipTracker (ipKey r.ip r.year) = none := heq
      simp [usedI, setStore, heq, heq2, freshIpRec]
    | some d =>
      have heq2 : s.ipTracker (ipKey r.ip r.year) = some d := heq
      simp [usedI, setStore, heq, heq2]
  · simp [usedI, setStore, hk]

/-- One `register-download` call keeps every counter of both maps at
most 3, whatever branch it takes. -/
theorem register_le3_step (s : MemState) (r : RegReq)
    (h : ∀ k, usedD s k ≤ 3 ∧ usedI s k ≤ 3) :
    ∀ k, usedD (registerDownload s r).2 k ≤ 3 ∧
      usedI (registerDownload s r).2 k ≤ 3 := by
  intro k
  cases hU : unlimOf s r with
  | true =>
    rw [usedD_register_unlim s r hU, usedI_register_unlim s r hU]
    exact h k
  | false =>
    by_cases h3 : 3 ≤ usageOf s r
    · rw [register_denied s r hU h3]
      exact h k
    · constructor
      · rw [usedD_register_success s r hU h3]
        split
        · omega
        · split
          · split
            · omega
            · exact (h k).1
          · exact (h k).1
      · rw [usedI_register_success s r hU h3]
        split
        · omega
        · exact (h k).2

/-- The at-most-3 bound is preserved along any sequence of
`register-download` calls. -/
theorem run_le3 (reqs : List RegReq) (s : MemState)
    (h : ∀ k, usedD s k ≤ 3 ∧ usedI s k ≤ 3) :
    ∀ k, usedD (List.foldl (fun s2 r => (registerDownload s2 r).2) s reqs) k ≤ 3 ∧
      usedI (List.foldl (fun s2 r => (registerDownload s2 r).2) s reqs) k ≤ 3 := by
  induction reqs generalizing s with
  | nil => exact h
  | cons r rest ih =>
    exact ih (registerDownload s r).2 (register_le3_step s r h)

end Mem

/-- C1: for every account and every epoch, without a valid entitlement,
after any number of `register-download` calls from the empty store the
downloads-used counter recorded under any key of either tracker map is
at most 3.  The statement is hypothesis-free and therefore stronger than
the claim: the bound holds for every key after every call sequence,
whether or not the individual calls succeeded (the handler is
synchronous, so any concurrent schedule is one such sequence). -/
theorem claim_C1_quota_cap (reqs : List Mem.RegReq) (k : String) :
    Mem.usedD (Mem.runRegisterList reqs) k ≤ 3 ∧
    Mem.usedI (Mem.runRegisterList reqs) k ≤ 3 := by
  have h0 : ∀ k2, Mem.usedD Mem.emptyState k2 ≤ 3 ∧
      Mem.usedI Mem.emptyState k2 ≤ 3 := by
    intro k2
    simp [Mem.usedD, Mem.usedI, Mem.emptyState]
  exact Mem.run_le3 reqs Mem.emptyState h0 k

/-- C2: the effective downloads-used of a request is the maximum of the
counters over the present identity dimensions (0 when none has a
record); consequently, a register-download call for an account with no
record of its own — and, per Scenario B's premise, no entitlement on any
presented dimension — is denied whenever one of its presented dimensions
already has downloads-used at least 3. -/
theorem claim_C2_max_reconciliation :
    (∀ ud md id : Option Mem.TrackRec,
      Mem.calcUsage ud md id = Mem.specMaxUsage ud md id)
    ∧ Mem.calcUsage none none none = 0
    ∧ ∀ (s : Mem.MemState) (r : Mem.RegReq),
        Mem.userLookup s r = none →
        (∀ d, Mem.machineLookup s r = some d → d.unlimitedAccess = false) →
        ((∃ d, Mem.machineLookup s r = some d ∧ 3 ≤ d.downloadsUsed) ∨
          (∃ d, Mem.ipLookup s r = some d ∧ 3 ≤ d.downloadsUsed)) →
        3 ≤ Mem.usageOf s r ∧
        Mem.registerDownload s r =
          (Mem.RegResult.quotaExceeded (Mem.usageOf s r), s) := by
  refine ⟨Mem.calcUsage_eq_spec, rfl, ?_⟩
  intro s r hnone hflag hdim
  have hU : Mem.unlimOf s r = false := by
    cases hm : Mem.machineLookup s r with
    | none => simp [Mem.unlimOf, Mem.unlimFlag, hnone, hm]
    | some d => simp [Mem.unlimOf, Mem.unlimFlag, hnone, hm, hflag d hm]
  have h3 : 3 ≤ Mem.usageOf s r := by
    unfold Mem.usageOf
    rcases hdim with ⟨d, hd, h3d⟩ | ⟨d, hd, h3d⟩
    · rw [hd]
      exact le_trans h3d (Mem.le_calcUsage_machine _ _ d)
    · rw [hd]
      exact le_trans h3d (Mem.le_calcUsage_ip _ _ d)
  exact ⟨h3, Mem.register_denied s r hU h3⟩

/-- Witness for C2, instantiating Scenario B: account `u2` without a
record of its own, device `d9` already at 3 downloads; the combined call
is denied. -/
theorem claim_C2_witness :
    Mem.userLookup Fx.sB Fx.rB = none ∧
    3 ≤ Mem.usageOf Fx.sB Fx.rB ∧
    Mem.registerDownload Fx.sB Fx.rB =
      (Mem.RegResult.quotaExceeded (Mem.usageOf Fx.sB Fx.rB), Fx.sB) := by
  have hflag : ∀ d, Mem.machineLookup Fx.sB Fx.rB = some d →
      d.unlimitedAccess = false := by
    intro d hd
    have h2 : some Fx.mdB = some d := hd
    cases h2
    rfl
  have hdim : (∃ d, Mem.machineLookup Fx.sB Fx.rB = some d ∧
      3 ≤ d.downloadsUsed) ∨
      (∃ d, Mem.ipLookup Fx.sB Fx.rB = some d ∧ 3 ≤ d.downloadsUsed) :=
    Or.inl ⟨Fx.mdB, rfl, by decide⟩
  have h := (claim_C2_max_reconciliation.2.2 Fx.sB Fx.rB (by decide) hflag hdim)
  exact ⟨by decide, h.1, h.2⟩

/-- C3, Scenario A: a fresh account registers three downloads with
distinct image references, getting remaining 2, 1, 0, and a fourth call
fails with a quota-exceeded result. -/
theorem claim_C3_scenario_A :
    (Mem.registerDownload Mem.emptyState (Fx.rA "img1")).1 =
      Mem.RegResult.success 2 1 ∧
    (Mem.registerDownload Fx.sA1 (Fx.rA "img2")).1 =
      Mem.RegResult.success 1 2 ∧
    (Mem.registerDownload Fx.sA2 (Fx.rA "img3")).1 =
      Mem.RegResult.success 0 3 ∧
    (Mem.registerDownload Fx.sA3 (Fx.rA "img4")).1 =
      Mem.RegResult.quotaExceeded 3 := by
  decide

/-- C4: a register-download denied by the quota guard (reconciled usage
at least 3, no unlimited flag) answers quota-exceeded and returns the
store entirely unchanged. -/
theorem claim_C4_denial_pure (s : Mem.MemState) (r : Mem.RegReq)
    (hU : Mem.unlimOf s r = false) (h3 : 3 ≤ Mem.usageOf s r) :
    Mem.registerDownload s r =
      (Mem.RegResult.quotaExceeded (Mem.usageOf s r), s) :=
  Mem.register_denied s r hU h3

/-- Witness for C4: account `u9` at 3 downloads is denied and the store
is returned unchanged. -/
theorem claim_C4_witness :
    Mem.unlimOf Fx.sC4 Fx.rC4 = false ∧
    3 ≤ Mem.usageOf Fx.sC4 Fx.rC4 ∧
    Mem.registerDownload Fx.sC4 Fx.rC4 =
      (Mem.RegResult.quotaExceeded (Mem.usageOf Fx.sC4 Fx.rC4), Fx.sC4) :=
  ⟨by decide, by decide, claim_C4_denial_pure Fx.sC4 Fx.rC4 (by decide) (by decide)⟩

/-- C7: while the unlimited flag applies, a register-download call
reports the unlimited result, records the event in the account record's
history, and leaves every downloads-used counter of both maps exactly as
it was — unlimited downloads never touch the free-quota counters. -/
theorem claim_C7_unlimited_frame (s : Mem.MemState) (r : Mem.RegReq)
    (hU : Mem.unlimOf s r = true) :
    (Mem.registerDownload s r).1 = Mem.RegResult.unlimited (Mem.usageOf s r)
    ∧ (∀ k, Mem.usedD (Mem.registerDownload s r).2 k = Mem.usedD s k)
    ∧ (∀ k, Mem.usedI (Mem.registerDownload s r).2 k = Mem.usedI s k)
    ∧ Mem.histD (Mem.registerDownload s r).2 (Mem.userKey r.userId r.year)
      = Mem.histD s (Mem.userKey r.userId r.year) ++ [Mem.mkEvent r] :=
  ⟨Mem.register_unlim_result s r hU,
    fun k => Mem.usedD_register_unlim s r hU k,
    fun k => Mem.usedI_register_unlim s r hU k,
    Mem.histD_register_unlim s r hU⟩

/-- Witness for C7, instantiating Scenario C: account `u3` with an
activated entitlement downloads once; its free-quota counter was 0 and
stays 0. -/
theorem claim_C7_witness :
    Mem.unlimOf Fx.sC7 Fx.rC7 = true ∧
    Mem.usedD Fx.sC7 (Mem.userKey "u3" 2025) = 0 ∧
    Mem.usedD (Mem.registerDownload Fx.sC7 Fx.rC7).2 (Mem.userKey "u3" 2025)
      = Mem.usedD Fx.sC7 (Mem.userKey "u3" 2025) :=
  ⟨by decide, by decide,
    (claim_C7_unlimited_frame Fx.sC7 Fx.rC7 (by decide)).2.1 (Mem.userKey "u3" 2025)⟩

/-- C9: a successful free-quota register-download writes the identical
counter value, the pre-call reconciled maximum plus one, to the account
record, the device record (when a device id was presented) and the
network record. -/
theorem claim_C9_synchronized_writes (s : Mem.MemState) (r : Mem.RegReq)
    (hU : Mem.unlimOf s r = false) (h3 : ¬ 3 ≤ Mem.usageOf s r) :
    (Mem.registerDownload s r).1 =
      Mem.RegResult.success (3 - (Mem.usageOf s r + 1)) (Mem.usageOf s r + 1)
    ∧ Mem.usedD (Mem.registerDownload s r).2 (Mem.userKey r.userId r.year)
      = Mem.usageOf s r + 1
    ∧ (∀ m, r.machineId = some m →
        Mem.usedD (Mem.registerDownload s r).2 (Mem.machineKey m r.year)
          = Mem.usageOf s r + 1)
    ∧ Mem.usedI (Mem.registerDownload s r).2 (Mem.ipKey r.ip r.year)
      = Mem.usageOf s r + 1 := by
  refine ⟨Mem.register_success_result s r hU h3, ?_, ?_, ?_⟩
  · rw [Mem.usedD_register_success s r hU h3]
    simp
  · intro m hm
    rw [Mem.usedD_register_success s r hU h3]
    by_cases hk : Mem.machineKey m r.year = Mem.userKey r.userId r.year
    · simp [hk]
    · simp [hk, hm]
  · rw [Mem.usedI_register_success s r hU h3]
    simp

/-- Witness for C9: a fresh account with a device id registers a
download; account, device and network records all read 1. -/
theorem claim_C9_witness :
    Mem.unlimOf Mem.emptyState Fx.rC9 = false ∧
    ¬ 3 ≤ Mem.usageOf Mem.emptyState Fx.rC9 ∧
    Mem.usedD (Mem.registerDownload Mem.emptyState Fx.rC9).2
      (Mem.machineKey "m4" 2025) = Mem.usageOf Mem.emptyState Fx.rC9 + 1 :=
  ⟨by decide, by decide,
    (claim_C9_synchronized_writes Mem.emptyState Fx.rC9 (by decide)
      (by decide)).2.2.1 "m4" rfl⟩

namespace Ul

/-- String append acts on the underlying character lists. -/
theorem data_app (a b : String) : (a ++ b).data = a.data ++ b.data := rfl

/-- An activation-code key never collides with a user key (their fixed
leading texts differ at the first character). -/
theorem act_ne_user (c u : String) : activationKeyUl c ≠ userKeyUl u := by
  intro h
  have hd : (activationKeyUl c).data = (userKeyUl u).data :=
    congrArg String.data h
  have h1 : ((activationKeyUl c).data).head? = some 'a' := rfl
  have h2 : ((userKeyUl u).data).head? = some 'u' := rfl
  rw [hd] at h1
  rw [h1] at h2
  simp at h2

/-- An activation-code key never collides with a machine key. -/
theorem act_ne_machine (c m : String) : activationKeyUl c ≠ machineKeyUl m := by
  intro h
  have hd := congrArg String.data h
  have h1 : ((activationKeyUl c).data).head? = some 'a' := rfl
  have h2 : ((machineKeyUl m).data).head? = some 'u' := rfl
  rw [hd] at h1
  rw [h1] at h2
  simp at h2

/-- A user key never collides with a machine key (the texts differ at
index 10). -/
theorem user_ne_machine (u m : String) : userKeyUl u ≠ machineKeyUl m := by
  intro h
  have hd := congrArg String.data h
  have h1 : ((userKeyUl u).data).get? 10 = some 'u' := rfl
  have h2 : ((machineKeyUl m).data).get? 10 = some 'm' := rfl
  rw [hd] at h1
  rw [h1] at h2
  simp at h2

/-- Symmetric orientation of `act_ne_user`. -/
theorem user_ne_act (u c : String) : userKeyUl u ≠ activationKeyUl c :=
  (act_ne_user c u).symm

/-- Symmetric orientation of `act_ne_machine`. -/
theorem machine_ne_act (m c : String) : machineKeyUl m ≠ activationKeyUl c :=
  (act_ne_machine c m).symm

/-- Symmetric orientation of `user_ne_machine`. -/
theorem machine_ne_user (m u : String) : machineKeyUl m ≠ userKeyUl u :=
  (user_ne_machine u m).symm

/-- Different activation codes give different activation keys. -/
theorem act_inj (c1 c2 : String)
    (h : activationKeyUl c1 = activationKeyUl c2) : c1 = c2 := by
  have hd := congrArg String.data h
  simp only [activationKeyUl, data_app] at hd
  exact String.ext (List.append_cancel_left hd)

end Ul

/-- C5 counterexample: the claim says an expired grant makes the
registrar fall through to the free-quota path exactly as if no
entitlement existed.  With the expired grant of `u5` present the
registrar answers the expired-access 403; in the otherwise identical
store without the grant (both quota maps are empty in each) the same
request succeeds with 2 downloads remaining. -/
theorem claim_C5_counterexample :
    Ul.lookupRegister Fx.sExp Fx.rExp.userId Fx.rExp.machineId = some Fx.gExp ∧
    Fx.gExp.expires < Fx.rExp.now ∧
    (Ul.registerDownload Fx.sExp Fx.rExp).1 = Ul.UlRegResult.expiredDenied ∧
    (Ul.registerDownload Ul.emptyState Fx.rExp).1 = Ul.UlRegResult.success 2 1 ∧
    (Ul.registerDownload Fx.sExp Fx.rExp).1 ≠
      (Ul.registerDownload Ul.emptyState Fx.rExp).1 := by
  decide

/-- C5 as amended: an expired grant is reported by `verify-unlimited`
with `hasUnlimited = false`, as is the absence of any grant; the
registrar's entitlement check, however, on finding an expired grant
denies the request with the expired-access 403 (leaving the store
unchanged) instead of falling through to the free-quota path. -/
theorem claim_C5_expired_treatment :
    (∀ (s : Ul.UlState) (u : String) (mid code : Option String) (now : Nat),
      Ul.lookupVerify s u mid code = none →
      Ul.verifyUnlimited s u mid code now = Ul.VerifyResult.notFound)
    ∧ (∀ (s : Ul.UlState) (u : String) (mid code : Option String) (now : Nat)
        (g : Ul.Grant), Ul.lookupVerify s u mid code = some g →
        g.expires < now →
        Ul.verifyUnlimited s u mid code now = Ul.VerifyResult.expired)
    ∧ (∀ v : Ul.VerifyResult,
        v = Ul.VerifyResult.notFound ∨ v = Ul.VerifyResult.expired →
        v.hasUnlimited = false)
    ∧ (∀ (s : Ul.UlState) (r : Ul.UlRegReq) (g : Ul.Grant),
        Ul.lookupRegister s r.userId r.machineId = some g →
        g.expires < r.now →
        Ul.registerDownload s r = (Ul.UlRegResult.expiredDenied, s)) := by
  refine ⟨?_, ?_, ?_, ?_⟩
  · intro s u mid code now h
    simp [Ul.verifyUnlimited, h]
  · intro s u mid code now g hg hlt
    simp [Ul.verifyUnlimited, hg, hlt]
  · intro v h
    rcases h with h | h <;> subst h <;> rfl
  · intro s r g hg hlt
    simp [Ul.registerDownload, hg, hlt]

/-- Witness for the amended C5 at the expired grant of `u5`. -/
theorem claim_C5_witness :
    Ul.lookupVerify Fx.sExp "u5" none none = some Fx.gExp ∧
    Fx.gExp.expires < Ul.yearMs + 5 ∧
    Ul.verifyUnlimited Fx.sExp "u5" none none (Ul.yearMs + 5)
      = Ul.VerifyResult.expired ∧
    (Ul.verifyUnlimited Fx.sExp "u5" none none (Ul.yearMs + 5)).hasUnlimited
      = false ∧
    Ul.registerDownload Fx.sExp Fx.rExp = (Ul.UlRegResult.expiredDenied, Fx.sExp) := by
  refine ⟨by decide, by decide, ?_, ?_, ?_⟩
  · exact claim_C5_expired_treatment.2.1 Fx.sExp "u5" none none
      (Ul.yearMs + 5) Fx.gExp (by decide) (by decide)
  · rw [claim_C5_expired_treatment.2.1 Fx.sExp "u5" none none
      (Ul.yearMs + 5) Fx.gExp (by decide) (by decide)]
    rfl
  · exact claim_C5_expired_treatment.2.2.2 Fx.sExp Fx.rExp Fx.gExp
      (by decide) (by decide)

/-- C6 counterexample: after activating twice for account `u` (codes
`C1` then `C2`), resolving by the previously issued activation code `C1`
returns the first grant, whose expiry is not the latest — the claim that
resolve by any lookup key returns only the grant with the latest expiry
fails. -/
theorem claim_C6_counterexample :
    Ul.verifyUnlimited Fx.sAct2 "u" none (some "C1") 2500
      = Ul.VerifyResult.active 1000 (1000 + Ul.yearMs) 0 "C1" ∧
    (1000 + Ul.yearMs : Nat) ≠ 2000 + Ul.yearMs ∧
    Ul.verifyUnlimited Fx.sAct2 "u" none none 2500
      = Ul.VerifyResult.active 2000 (2000 + Ul.yearMs) 0 "C2" := by
  decide

/-- C6 as amended: re-activation replaces the grant under the account
(and machine) keys, so resolve by account id returns only the grant with
the latest expiry; but the activation-code key of the earlier grant
remains in the store, so resolve by a previously issued activation code
still returns the earlier grant. -/
theorem claim_C6_activation_replaces (s : Ul.UlState)
    (r1 r2 : Ul.UlActReq) (n3 : Nat)
    (_huid : r1.userId = r2.userId) (hcode : r1.code ≠ r2.code)
    (h1 : ¬ r1.now + Ul.yearMs < n3) (h2 : ¬ r2.now + Ul.yearMs < n3) :
    Ul.verifyUnlimited (Ul.activateUnlimited (Ul.activateUnlimited s r1) r2)
        r2.userId none none n3
      = Ul.VerifyResult.active r2.now (r2.now + Ul.yearMs) 0 r2.code
    ∧ Ul.verifyUnlimited (Ul.activateUnlimited (Ul.activateUnlimited s r1) r2)
        r2.userId none (some r1.code) n3
      = Ul.VerifyResult.active r1.now (r1.now + Ul.yearMs) 0 r1.code := by
  have hAB : Ul.activationKeyUl r1.code ≠ Ul.activationKeyUl r2.code :=
    fun h => hcode (Ul.act_inj r1.code r2.code h)
  constructor
  · cases hm2 : r2.machineId with
    | none =>
      simp [Ul.verifyUnlimited, Ul.lookupVerify, Ul.activateUnlimited,
        Ul.setG, hm2, Ul.user_ne_act, h2]
    | some m =>
      simp [Ul.verifyUnlimited, Ul.lookupVerify, Ul.activateUnlimited,
        Ul.setG, hm2, Ul.user_ne_act, Ul.user_ne_machine, h2]
  · cases hm2 : r2.machineId with
    | none =>
      cases hm1 : r1.machineId with
      | none =>
        simp [Ul.verifyUnlimited, Ul.lookupVerify, Ul.activateUnlimited,
          Ul.setG, hm1, hm2, Ul.act_ne_user, hAB, h1]
      | some m1 =>
        simp [Ul.verifyUnlimited, Ul.lookupVerify, Ul.activateUnlimited,
          Ul.setG, hm1, hm2, Ul.act_ne_user, Ul.act_ne_machine, hAB, h1]
    | some m2 =>
      cases hm1 : r1.machineId with
      | none =>
        simp [Ul.verifyUnlimited, Ul.lookupVerify, Ul.activateUnlimited,
          Ul.setG, hm1, hm2, Ul.act_ne_user, Ul.act_ne_machine, hAB, h1]
      | some m1 =>
        simp [Ul.verifyUnlimited, Ul.lookupVerify, Ul.activateUnlimited,
          Ul.setG, hm1, hm2, Ul.act_ne_user, Ul.act_ne_machine, hAB, h1]

/-- Witness for the amended C6 at the concrete double activation. -/
theorem claim_C6_witness :
    Fx.act1.userId = Fx.act2.userId ∧ Fx.act1.code ≠ Fx.act2.code ∧
    Ul.verifyUnlimited Fx.sAct2 "u" none none 2500
      = Ul.VerifyResult.active 2000 (2000 + Ul.yearMs) 0 "C2" :=
  ⟨rfl, by decide,
    (claim_C6_activation_replaces Ul.emptyState Fx.act1 Fx.act2 2500 rfl
      (by decide) (by decide) (by decide)).1⟩

/-- C8 counterexample: the claim says a grant whose expires-at is not
after the current time is deleted by the sweeper run; a grant with
expires-at equal to the run time is retained by the code (the deletion
test is strict). -/
theorem claim_C8_counterexample :
    Fx.gBound.expires ≤ 100 ∧
    (Ul.sweep Fx.sBound 100).unlimitedAccessTracker (Ul.userKeyUl "u")
      = some Fx.gBound := by
  decide

/-- C8 as amended: a sweeper run deletes exactly the quota records whose
last-seen timestamp is more than 30 days (account/device map) or 7 days
(network map) before the run time, and exactly the grants whose nonzero
expires-at is strictly earlier than the run time; in particular a record
last touched 31 days ago is removed and one touched 29 days ago is
retained. -/
theorem claim_C8_sweep (s : Ul.UlState) (now : Nat) (k : String)
    (d : Ul.QuotaRec) (g : Ul.Grant) :
    ((Ul.sweep s now).downloadTracker k = some d ↔
      s.downloadTracker k = some d ∧ now - d.lastCheck ≤ 30 * Ul.oneDay)
    ∧ ((Ul.sweep s now).ipTracker k = some d ↔
      s.ipTracker k = some d ∧ now - d.lastCheck ≤ 7 * Ul.oneDay)
    ∧ ((Ul.sweep s now).unlimitedAccessTracker k = some g ↔
      s.unlimitedAccessTracker k = some g ∧
        (g.expires = 0 ∨ ¬ g.expires < now))
    ∧ (s.downloadTracker k = some d → now = d.lastCheck + 31 * Ul.oneDay →
      (Ul.sweep s now).downloadTracker k = none)
    ∧ (s.downloadTracker k = some d → now = d.lastCheck + 29 * Ul.oneDay →
      (Ul.sweep s now).downloadTracker k = some d) := by
  refine ⟨?_, ?_, ?_, ?_, ?_⟩
  · cases hdt : s.downloadTracker k with
    | none => simp [Ul.sweep, hdt]
    | some d0 =>
      simp only [Ul.sweep, hdt]
      constructor
      · intro h
        by_cases hc : 30 * Ul.oneDay < now - d0.lastCheck
        · simp [hc] at h
        · simp [hc] at h
          subst h
          exact ⟨rfl, by omega⟩
      · intro ⟨h, hle⟩
        cases h
        have hc : ¬ 30 * Ul.oneDay < now - d.lastCheck := by omega
        simp [hc]
  · cases hdt : s.ipTracker k with
    | none => simp [Ul.sweep, hdt]
    | some d0 =>
      simp only [Ul.sweep, hdt]
      constructor
      · intro h
        by_cases hc : 7 * Ul.oneDay < now - d0.lastCheck
        · simp [hc] at h
        · simp [hc] at h
          subst h
          exact ⟨rfl, by omega⟩
      · intro ⟨h, hle⟩
        cases h
        have hc : ¬ 7 * Ul.oneDay < now - d.lastCheck := by omega
        simp [hc]
  · cases hdt : s.unlimitedAccessTracker k with
    | none => simp [Ul.sweep, hdt]
    | some g0 =>
      simp only [Ul.sweep, hdt]
      constructor
      · intro h
        by_cases hc : g0.expires ≠ 0 ∧ g0.expires < now
        · simp [hc] at h
        · simp [hc] at h
          subst h
          refine ⟨rfl, ?_⟩
          by_cases hz : g0.expires = 0
          · exact Or.inl hz
          · exact Or.inr (fun hlt => hc ⟨hz, hlt⟩)
      · intro ⟨h, hor⟩
        cases h
        have hc : ¬ (g.expires ≠ 0 ∧ g.expires < now) := by
          rcases hor with hz | hnlt
          · exact fun hand => hand.1 hz
          · exact fun hand => hnlt hand.2
        simp [hc]
  · intro h hnow
    have hc : 30 * Ul.oneDay < now - d.lastCheck := by
      subst hnow
      simp [Ul.oneDay]
    simp [Ul.sweep, h, hc]
  · intro h hnow
    have hc : ¬ 30 * Ul.oneDay < now - d.lastCheck := by
      subst hnow
      simp [Ul.oneDay]
    simp [Ul.sweep, h, hc]

/-- Witness for the amended C8: a record last checked at time 0 is
removed by a sweep 31 days later and retained by one 29 days later, and
the boundary grant with expires-at equal to the run time is retained. -/
theorem claim_C8_witness :
    (Ul.sweep Fx.sSweep (31 * Ul.oneDay)).downloadTracker "u7_2025" = none ∧
    (Ul.sweep Fx.sSweep (29 * Ul.oneDay)).downloadTracker "u7_2025"
      = some Fx.dSweep ∧
    (Ul.sweep Fx.sBound 100).unlimitedAccessTracker (Ul.userKeyUl "u")
      = some Fx.gBound := by
  refine ⟨?_, ?_, ?_⟩
  · exact (claim_C8_sweep Fx.sSweep (31 * Ul.oneDay) "u7_2025" Fx.dSweep
      Fx.gBound).2.2.2.1 (by decide) (by decide)
  · exact (claim_C8_sweep Fx.sSweep (29 * Ul.oneDay) "u7_2025" Fx.dSweep
      Fx.gBound).2.2.2.2 (by decide) (by decide)
  · exact ((claim_C8_sweep Fx.sBound 100 (Ul.userKeyUl "u") Fx.dSweep
      Fx.gBound).2.2.1).mpr ⟨by decide, Or.inr (by decide)⟩
